import Mathlib

/-!
Verification development for the credit-evaluation engine in `src/app.py`
(class `ModeloScoringCrediticio`, the `/api/evaluar` route `evaluar_credito`
and the `/api/admin/actualizar-reglas` route `actualizar_reglas`).

Modelling conventions:
* Python floats are modelled as rationals (`ℚ`); Python ints as `ℤ`.
* A numeric field of the incoming JSON record is modelled as
  `Option (Except Unit τ)`: `none` when the key is absent (then `datos.get`
  supplies the default), `some (.ok v)` when the present value coerces to `v`
  under the coercion the code applies at that read site (`float(...)` or
  `int(...)`), and `some (.error ())` when that coercion raises
  (`ValueError`/`TypeError`).  String-valued fields never raise and are
  modelled as `Option String`.
* Functions that can raise are `Except Unit`-valued; the `do`/bind structure
  follows the Python control flow line by line, so which reads happen before
  an early `return` is preserved.
* `datetime.now()` is modelled by an explicit timestamp argument `ahora : ℤ`;
  the `'fecha'` entry of an approved result stores it.
* Display-only payload is omitted: the `'detalles'` lists of human-readable
  factor rows, the f-string texts of the rejection reasons (kept as the
  constructor of `Razon` that identifies the return site), the `'categoria'`
  and `'color_riesgo'` strings (the latter determined by `nivel_riesgo`).
-/

namespace CreditApp

/-- Decidable equality for `Except`, needed to evaluate concrete runs of the
fallible operations. -/
instance {ε α : Type _} [DecidableEq ε] [DecidableEq α] : DecidableEq (Except ε α) :=
  fun a b =>
    match a, b with
    | .error e, .error f =>
      if h : e = f then .isTrue (by rw [h]) else .isFalse (fun hh => h (Except.error.inj hh))
    | .ok x, .ok y =>
      if h : x = y then .isTrue (by rw [h]) else .isFalse (fun hh => h (Except.ok.inj hh))
    | .error _, .ok _ => .isFalse (fun hh => Except.noConfusion hh)
    | .ok _, .error _ => .isFalse (fun hh => Except.noConfusion hh)

/-- Python `int(x)` on a rational: truncation toward zero. -/
def pytrunc (q : ℚ) : ℤ := if 0 ≤ q then ⌊q⌋ else ⌈q⌉

/-- Python `round(x, 2)` on a rational (round to nearest hundredth; Python's
half-to-even tie rule differs from `round`'s half-up only on exact half-cent
values, which no statement below depends on). -/
def pyRound2 (q : ℚ) : ℚ := ((round (q * 100) : ℤ) : ℚ) / 100

/-- Python `round(x, 1)` on a rational. -/
def pyRound1 (q : ℚ) : ℚ := ((round (q * 10) : ℤ) : ℚ) / 10

/-- Python `round(x, -2)` on a rational (round to nearest hundred). -/
def pyRoundNeg2 (q : ℚ) : ℚ := ((round (q / 100) : ℤ) : ℚ) * 100

/-- The rule configuration `REGLAS_NEGOCIO` (`src/app.py:17-27`); also the per-instance copy
`self.reglas`.  Keys keep their Python types: ints as `ℤ`, floats as `ℚ`,
the term list as `List ℤ`. -/
structure Reglas where
  score_minimo_aprobacion : ℤ
  ingreso_minimo : ℤ
  monto_maximo_credito : ℤ
  plazos_autorizados : List ℤ
  tasa_minima : ℚ
  tasa_maxima : ℚ
  tdsr_maximo : ℚ
  fico_minimo_aprobacion : ℤ
  factor_scoring : ℚ
deriving DecidableEq

/-- The default configuration of `REGLAS_NEGOCIO`. -/
def reglasDefault : Reglas :=
  { score_minimo_aprobacion := 250
    ingreso_minimo := 8000
    monto_maximo_credito := 150000
    plazos_autorizados := [3, 6, 9, 12]
    tasa_minima := 0.22
    tasa_maxima := 0.38
    tdsr_maximo := 0.45
    fico_minimo_aprobacion := 500
    factor_scoring := 1.2 }

/-- The applicant record `datos`.  Each field models one key of the incoming
JSON dict, under the conventions in the file header.  `monto_solicitado`
is accepted in the input record but never read by any function of
`src/app.py`. -/
structure Datos where
  antiguedad_domicilio : Option (Except Unit ℚ) := none
  estado_civil : Option String := none
  dependientes : Option (Except Unit ℤ) := none
  nivel_estudios : Option String := none
  ocupacion : Option String := none
  antiguedad_empleo : Option (Except Unit ℚ) := none
  edad : Option (Except Unit ℤ) := none
  comprobante_domicilio : Option String := none
  comprobante_ingresos : Option String := none
  ultima_calificacion : Option (Except Unit ℤ) := none
  numero_consultas : Option (Except Unit ℤ) := none
  fico_score : Option (Except Unit ℤ) := none
  tipo_comprobante : Option String := none
  ingresos_mensuales : Option (Except Unit ℚ) := none
  deuda_mensual : Option (Except Unit ℚ) := none
  monto_solicitado : Option (Except Unit ℚ) := none

/-- Reading one field: `float(datos.get(k, defecto))` / `int(datos.get(k, defecto))`: a missing
key yields the default, a present key yields the outcome of the coercion. -/
def getCampo {α : Type} (campo : Option (Except Unit α)) (defecto : α) : Except Unit α :=
  campo.getD (.ok defecto)

/-- Antigüedad Domicilio block (`src/app.py:44-52`). -/
def puntos_domicilio (antiguedad : ℚ) : ℤ :=
  if antiguedad ≥ 6 then 30 else if antiguedad ≥ 3 then 25 else if antiguedad ≥ 1 then 15 else 5

/-- Estado Civil block (`src/app.py:63-64`). -/
def puntos_civil (estado : String) : ℤ := if estado = "casado" then 20 else 15

/-- Dependientes block (`src/app.py:74-75`). -/
def puntos_dep (dependientes : ℤ) : ℤ := if dependientes ≤ 2 then 15 else 10

/-- Nivel de Estudios block, the dict lookup with default 10 (`src/app.py:85-92`). -/
def puntos_estudios (nivel : String) : ℤ :=
  if nivel = "universidad" then 20 else if nivel = "preparatoria" then 17
  else if nivel = "secundaria" then 14 else if nivel = "primaria" then 10 else 10

/-- Ocupación block, the dict lookup with default 15 (`src/app.py:102-109`). -/
def puntos_ocupacion (oc : String) : ℤ :=
  if oc = "empleado_publico" then 25 else if oc = "empleado_privado" then 22
  else if oc = "independiente" then 18 else if oc = "comerciante" then 15 else 15

/-- Antigüedad Empleo block (`src/app.py:119-125`). -/
def puntos_emp (antiguedad : ℚ) : ℤ :=
  if antiguedad ≥ 3 then 20 else if antiguedad ≥ 1 then 16 else 10

/-- Edad block (`src/app.py:136-144`). -/
def puntos_edad (edad : ℤ) : ℤ :=
  if edad > 45 then 30 else if edad ≥ 35 then 28 else if edad ≥ 25 then 25 else 20

/-- Validaciones block (`src/app.py:155-163`): `datos.get(k) == 'si'`. -/
def puntos_validaciones (dom ing : Option String) : ℤ :=
  if dom = some "si" ∧ ing = some "si" then 20
  else if dom = some "si" ∨ ing = some "si" then 15 else 8

/-- Última Calificación block (`src/app.py:190-198`). -/
def puntos_calif (c : ℤ) : ℤ :=
  if c = 1 then 50 else if c = 2 then 40 else if c = 3 then 25 else 15

/-- Número de Consultas block (`src/app.py:209-217`). -/
def puntos_consultas (n : ℤ) : ℤ :=
  if n ≤ 5 then 30 else if n ≤ 10 then 25 else if n ≤ 15 then 20 else 15

/-- FICO Score block (`src/app.py:228-240`). -/
def puntos_fico (f : ℤ) : ℤ :=
  if f ≥ 750 then 50 else if f ≥ 700 then 45 else if f ≥ 650 then 38
  else if f ≥ 600 then 30 else if f ≥ 550 then 25 else 18

/-- Tipo de Comprobante block (`src/app.py:267-273`). -/
def puntos_comprobante (t : String) : ℤ :=
  if t = "nomina" ∨ t = "estados_cuenta" then 35 else if t = "declaracion" then 30 else 20

/-- Estabilidad block (`src/app.py:284-290`). -/
def puntos_estabilidad (oc : String) : ℤ :=
  if oc = "empleado_publico" then 25 else if oc = "empleado_privado" then 22 else 18

/-- TDSR band block (`src/app.py:305-312`). -/
def puntos_tdsr (tdsr : ℚ) : ℤ :=
  if tdsr < 0.25 then 30 else if tdsr ≤ 0.35 then 28 else if tdsr ≤ 0.45 then 25 else 15

/-- One category result: the dict returned by each `calcular_*` method,
keeping the fields the rest of the evaluation reads. -/
structure Categoria where
  puntos_obtenidos : ℤ
  puntos_ponderados : ℚ
deriving DecidableEq

/-- The `calcular_capacidad_pago` result additionally carries `tdsr`. -/
structure Capacidad where
  puntos_obtenidos : ℤ
  puntos_ponderados : ℚ
  tdsr : ℚ
deriving DecidableEq

/-- Method `ModeloScoringCrediticio.calcular_variables_generales` (`src/app.py:39-183`). -/
def calcular_variables_generales (reglas : Reglas) (datos : Datos) : Except Unit Categoria :=
  getCampo datos.antiguedad_domicilio 0 >>= fun antiguedad_domicilio =>
  let estado_civil := datos.estado_civil.getD "soltero"
  getCampo datos.dependientes 0 >>= fun dependientes =>
  let nivel_estudios := datos.nivel_estudios.getD "secundaria"
  let ocupacion := datos.ocupacion.getD "empleado_privado"
  getCampo datos.antiguedad_empleo 0 >>= fun antiguedad_empleo =>
  getCampo datos.edad 25 >>= fun edad =>
  let puntos : ℤ :=
    puntos_domicilio antiguedad_domicilio + puntos_civil estado_civil +
    puntos_dep dependientes + puntos_estudios nivel_estudios +
    puntos_ocupacion ocupacion + puntos_emp antiguedad_empleo + puntos_edad edad +
    puntos_validaciones datos.comprobante_domicilio datos.comprobante_ingresos
  let puntosF : ℤ := pytrunc ((puntos : ℚ) * reglas.factor_scoring)
  pure { puntos_obtenidos := min puntosF 180
         puntos_ponderados := ((min puntosF 180 : ℤ) : ℚ) * 0.30 }

/-- Method `ModeloScoringCrediticio.calcular_historial_crediticio` (`src/app.py:185-260`). -/
def calcular_historial_crediticio (reglas : Reglas) (datos : Datos) : Except Unit Categoria :=
  getCampo datos.ultima_calificacion 2 >>= fun ultima_calificacion =>
  getCampo datos.numero_consultas 0 >>= fun num_consultas =>
  getCampo datos.fico_score 650 >>= fun fico_score =>
  let puntos : ℤ :=
    puntos_calif ultima_calificacion + puntos_consultas num_consultas + puntos_fico fico_score
  let puntosF : ℤ := pytrunc ((puntos : ℚ) * reglas.factor_scoring)
  pure { puntos_obtenidos := min puntosF 130
         puntos_ponderados := ((min puntosF 130 : ℤ) : ℚ) * 0.30 }

/-- Method `ModeloScoringCrediticio.calcular_capacidad_pago` (`src/app.py:262-333`).
When `ingresos_mensuales` is not positive the guard at `src/app.py:303` sets
`tdsr = 0` without dividing. -/
def calcular_capacidad_pago (reglas : Reglas) (datos : Datos) : Except Unit Capacidad :=
  let tipo_comprobante := datos.tipo_comprobante.getD "otros"
  let ocupacion := datos.ocupacion.getD "empleado_privado"
  getCampo datos.ingresos_mensuales ((reglas.ingreso_minimo : ℤ) : ℚ) >>= fun ingresos_mensuales =>
  getCampo datos.deuda_mensual 0 >>= fun deuda_mensual =>
  let tdsr : ℚ := if ingresos_mensuales > 0 then deuda_mensual / ingresos_mensuales else 0
  let puntos : ℤ :=
    puntos_comprobante tipo_comprobante + puntos_estabilidad ocupacion + puntos_tdsr tdsr
  let puntosF : ℤ := pytrunc ((puntos : ℚ) * reglas.factor_scoring)
  pure { puntos_obtenidos := min puntosF 90
         puntos_ponderados := ((min puntosF 90 : ℤ) : ℚ) * 0.40
         tdsr := tdsr }

/-- The local `factor_monto` of `calcular_condiciones_credito` (`src/app.py:337-344`). -/
def factorMonto (score_final : ℚ) : ℚ :=
  if score_final ≥ 350 then 4.0 else if score_final ≥ 300 then 3.5
  else if score_final ≥ 250 then 3.0 else 2.5

/-- The local `monto_final` of `calcular_condiciones_credito` (`src/app.py:346-348`),
before the `round(·, -2)` applied at the return. -/
def montoFinal (reglas : Reglas) (score_final ingresos_mensuales tdsr : ℚ) : ℚ :=
  max (min (ingresos_mensuales * factorMonto score_final * (1 - min tdsr 0.4))
        ((reglas.monto_maximo_credito : ℤ) : ℚ)) 10000

/-- The local `tasa` of `calcular_condiciones_credito` (`src/app.py:350-360`). -/
def tasaAnual (reglas : Reglas) (score_final : ℚ) : ℚ :=
  min (if score_final ≥ 350 then reglas.tasa_minima
       else if score_final ≥ 300 then reglas.tasa_minima + 0.04
       else if score_final ≥ 250 then reglas.tasa_minima + 0.08
       else reglas.tasa_minima + 0.12)
    reglas.tasa_maxima

/-- One entry of `opciones_plazo` (`src/app.py:373-378`). -/
structure OpcionPlazo where
  plazo : ℤ
  pago_mensual : ℚ
  porcentaje_ingreso : ℚ
  factible : Bool
deriving DecidableEq

/-- The loop body over `PLAZOS_AUTORIZADOS` (`src/app.py:364-378`).  `pago_mensual`
is computed from the unrounded `monto_final`; the stored payment is rounded to
2 decimals, the stored percentage to 1. -/
def opcionDe (monto_final tasa ingresos_mensuales : ℚ) (plazo : ℤ) : OpcionPlazo :=
  let tasa_mensual := tasa / 12
  let pago_mensual : ℚ :=
    if tasa_mensual > 0 then
      monto_final * (tasa_mensual * (1 + tasa_mensual) ^ plazo) / ((1 + tasa_mensual) ^ plazo - 1)
    else monto_final / (plazo : ℚ)
  let porcentaje_ingreso := pago_mensual / ingresos_mensuales * 100
  { plazo := plazo
    pago_mensual := pyRound2 pago_mensual
    porcentaje_ingreso := pyRound1 porcentaje_ingreso
    factible := decide (pago_mensual ≤ ingresos_mensuales * 0.35) }

/-- The dict returned by `calcular_condiciones_credito` (`src/app.py:380-384`). -/
structure Condiciones where
  monto_aprobado : ℚ
  tasa_anual : ℚ
  opciones_plazo : List OpcionPlazo
deriving DecidableEq

/-- Method `ModeloScoringCrediticio.calcular_condiciones_credito` (`src/app.py:335-384`). -/
def calcular_condiciones_credito (reglas : Reglas) (score_final ingresos_mensuales tdsr : ℚ) :
    Condiciones :=
  { monto_aprobado := pyRoundNeg2 (montoFinal reglas score_final ingresos_mensuales tdsr)
    tasa_anual := tasaAnual reglas score_final
    opciones_plazo := reglas.plazos_autorizados.map
      (opcionDe (montoFinal reglas score_final ingresos_mensuales tdsr)
        (tasaAnual reglas score_final) ingresos_mensuales) }

/-- Which of the four rejection `return` sites of `evaluar_solicitud` produced
the result; stands for the corresponding `'razon'` f-string. -/
inductive Razon
  | ingresos
  | fico
  | tdsr
  | score
deriving DecidableEq

/-- The `nivel_riesgo` classification of an approved result (`src/app.py:436-444`). -/
inductive Nivel
  | bajo
  | medio
  | alto
deriving DecidableEq

/-- The result dict of `evaluar_solicitud`.  Rejection results only populate
`aprobado`, `razon` and `score`; the remaining keys are absent (`none`). -/
structure Resultado where
  aprobado : Bool
  razon : Option Razon := none
  score : ℚ
  nivel_riesgo : Option Nivel := none
  monto_aprobado : Option ℚ := none
  tasa_anual : Option ℚ := none
  opciones_plazo : Option (List OpcionPlazo) := none
  tdsr : Option ℚ := none
  fecha : Option ℤ := none
deriving DecidableEq

/-- Method `ModeloScoringCrediticio.evaluar_solicitud` (`src/app.py:386-461`). -/
def evaluar_solicitud (reglas : Reglas) (datos : Datos) (ahora : ℤ) : Except Unit Resultado :=
  getCampo datos.ingresos_mensuales 0 >>= fun ingresos =>
  if ingresos < ((reglas.ingreso_minimo : ℤ) : ℚ) then
    pure { aprobado := false, razon := some .ingresos, score := 0 }
  else
    getCampo datos.fico_score 600 >>= fun fico =>
    if fico < reglas.fico_minimo_aprobacion then
      pure { aprobado := false, razon := some .fico, score := 0 }
    else
      calcular_variables_generales reglas datos >>= fun generales =>
      calcular_historial_crediticio reglas datos >>= fun historial =>
      calcular_capacidad_pago reglas datos >>= fun capacidad =>
      let score_final :=
        generales.puntos_ponderados + historial.puntos_ponderados + capacidad.puntos_ponderados
      if capacidad.tdsr > reglas.tdsr_maximo then
        pure { aprobado := false, razon := some .tdsr, score := score_final }
      else if score_final < ((reglas.score_minimo_aprobacion : ℤ) : ℚ) then
        pure { aprobado := false, razon := some .score, score := score_final }
      else
        let condiciones := calcular_condiciones_credito reglas score_final ingresos capacidad.tdsr
        let nivel : Nivel :=
          if score_final ≥ 350 then .bajo else if score_final ≥ 300 then .medio else .alto
        pure { aprobado := true
               razon := none
               score := pyRound1 score_final
               nivel_riesgo := some nivel
               monto_aprobado := some condiciones.monto_aprobado
               tasa_anual := some condiciones.tasa_anual
               opciones_plazo := some condiciones.opciones_plazo
               tdsr := some capacidad.tdsr
               fecha := some ahora }

/-- The JSON response of a route: either a success payload or the
`({'success': False, 'error': str(e)}, 400)` error payload produced by the
`except` branch. -/
inductive RespuestaApi
  | exito (data : Resultado)
  | fallo
deriving DecidableEq

/-- The `/api/evaluar` route `evaluar_credito` (`src/app.py:604-611`): wraps
`evaluar_solicitud` in `try/except`; an exception becomes the HTTP 400 error
payload, not an evaluation result. -/
def evaluar_credito (reglas : Reglas) (datos : Datos) (ahora : ℤ) : RespuestaApi :=
  match evaluar_solicitud reglas datos ahora with
  | .ok resultado => .exito resultado
  | .error _ => .fallo

/-- One entry of the JSON body posted to `/api/admin/actualizar-reglas`, after
the key dispatch of the validation loop (`src/app.py:570-580`): each known key
carries the outcome of the coercion the loop applies for it (`int(value)`,
`float(value)`, or `[int(x) for x in str(value).split(',')]`), `.error ()` when
that coercion raises; unknown keys are `desconocida` and are skipped. -/
inductive Override
  | score_minimo (v : Except Unit ℤ)
  | ingreso_minimo (v : Except Unit ℤ)
  | monto_maximo (v : Except Unit ℤ)
  | plazos (v : Except Unit (List ℤ))
  | tasa_minima (v : Except Unit ℚ)
  | tasa_maxima (v : Except Unit ℚ)
  | tdsr_maximo (v : Except Unit ℚ)
  | fico_minimo (v : Except Unit ℤ)
  | factor_scoring (v : Except Unit ℚ)
  | desconocida

/-- Applying one validated override entry to a rule state. -/
def aplicarOverride (r : Reglas) : Override → Except Unit Reglas
  | .score_minimo v => v >>= fun n => pure { r with score_minimo_aprobacion := n }
  | .ingreso_minimo v => v >>= fun n => pure { r with ingreso_minimo := n }
  | .monto_maximo v => v >>= fun n => pure { r with monto_maximo_credito := n }
  | .plazos v => v >>= fun l => pure { r with plazos_autorizados := l }
  | .tasa_minima v => v >>= fun q => pure { r with tasa_minima := q }
  | .tasa_maxima v => v >>= fun q => pure { r with tasa_maxima := q }
  | .tdsr_maximo v => v >>= fun q => pure { r with tdsr_maximo := q }
  | .fico_minimo v => v >>= fun n => pure { r with fico_minimo_aprobacion := n }
  | .factor_scoring v => v >>= fun q => pure { r with factor_scoring := q }
  | .desconocida => pure r

/-- The validation loop of the admin route (`src/app.py:570-580`): builds the
merged rule state; the first coercion that raises aborts the whole call before
any state is mutated (the dict `reglas_validadas` is only applied after the
loop completes). -/
def validarReglas (r : Reglas) : List Override → Except Unit Reglas
  | [] => pure r
  | o :: resto => aplicarOverride r o >>= fun r2 => validarReglas r2 resto

/-- The admin response: success message, or the `({'success': False,
'error': str(e)}, 400)` payload of the `except` branch. -/
inductive RespuestaAdmin
  | exito
  | fallo
deriving DecidableEq

/-- The `/api/admin/actualizar-reglas` route `actualizar_reglas`
(`src/app.py:561-589`), given the current rule state (held in both
`REGLAS_NEGOCIO` and `modelo.reglas`, which the route keeps in lockstep):
returns the response and the rule state after the call. -/
def actualizar_reglas (reglas : Reglas) (nuevas_reglas : List Override) :
    RespuestaAdmin × Reglas :=
  match validarReglas reglas nuevas_reglas with
  | .ok r => (.exito, r)
  | .error _ => (.fallo, reglas)

/-- An override entry whose coercion raises (`int()`/`float()`/the list
comprehension raising on the carried value). -/
def malformado : Override → Bool
  | .score_minimo (.error _) => true
  | .ingreso_minimo (.error _) => true
  | .monto_maximo (.error _) => true
  | .plazos (.error _) => true
  | .tasa_minima (.error _) => true
  | .tasa_maxima (.error _) => true
  | .tdsr_maximo (.error _) => true
  | .fico_minimo (.error _) => true
  | .factor_scoring (.error _) => true
  | _ => false

/-- Linear inverse-interpolation rate, as the spec words it: "rate = max_rate -
(score/100) * (max_rate - min_rate), clamped to [min_rate, max_rate]".  Stated
only to be compared with the source's `tasaAnual`. -/
def tasaInterpolada (tasa_min tasa_max score : ℚ) : ℚ :=
  max tasa_min (min tasa_max (tasa_max - score / 100 * (tasa_max - tasa_min)))

/-- Fixed-rate annuity payment, as the spec words it: monthly rate =
annual rate / 12, "payment = amount * monthly_rate*(1+monthly_rate)^term /
((1+monthly_rate)^term - 1) when monthly_rate > 0, else amount/term". -/
def pagoAnualidad (amount annual_rate : ℚ) (term : ℤ) : ℚ :=
  let r := annual_rate / 12
  if r > 0 then amount * (r * (1 + r) ^ term) / ((1 + r) ^ term - 1)
  else amount / (term : ℚ)

/-! ### Concrete inputs used by witnesses and counterexamples -/

/-- The `perfil_alto` case study of `CASOS_ESTUDIO` (`src/app.py:468-488`),
with every numeric string already coerced. -/
def perfilAlto : Datos :=
  { antiguedad_domicilio := some (.ok 8)
    estado_civil := some "casado"
    dependientes := some (.ok 2)
    nivel_estudios := some "universidad"
    ocupacion := some "empleado_publico"
    antiguedad_empleo := some (.ok 5)
    edad := some (.ok 38)
    comprobante_domicilio := some "si"
    comprobante_ingresos := some "si"
    ultima_calificacion := some (.ok 1)
    numero_consultas := some (.ok 2)
    fico_score := some (.ok 720)
    tipo_comprobante := some "nomina"
    ingresos_mensuales := some (.ok 35000)
    deuda_mensual := some (.ok 8000) }

/-- The default rules with the approval threshold lowered to 100, an admin
setting within the form's documented 100-400 range: the least change that
makes approvals reachable. -/
def reglas100 : Reglas := { reglasDefault with score_minimo_aprobacion := 100 }

/-- The default rules after an admin raised the approval threshold to 300. -/
def reglas300 : Reglas := { reglasDefault with score_minimo_aprobacion := 300 }

/-- Case `perfil_alto` violating both the income and the FICO minimum. -/
def datosDoble : Datos :=
  { perfilAlto with ingresos_mensuales := some (.ok 5000), fico_score := some (.ok 300) }

/-- Case `perfil_alto` with zero income and zero debt. -/
def datosCero : Datos :=
  { perfilAlto with ingresos_mensuales := some (.ok 0), deuda_mensual := some (.ok 0) }

/-- Case `perfil_alto` with a non-numeric `ingresos_mensuales` (so `float(...)`
raises). -/
def datosMalo : Datos := { perfilAlto with ingresos_mensuales := some (.error ()) }

/-- Case `perfil_alto` with a requested amount of 5000 supplied. -/
def datosConMonto : Datos := { perfilAlto with monto_solicitado := some (.ok 5000) }

/-- The result of evaluating `perfil_alto` under the default rules. -/
def resultadoPerfilAlto : Resultado :=
  { aprobado := false, razon := some .score, score := 129 }

/-- Erasing the timestamp field of a result. -/
def sinFecha (r : Resultado) : Resultado := { r with fecha := none }

/-! ### Helper lemmas -/

/-- Inversion of a successful `Except` bind. -/
lemma bind_eq_ok {α β : Type} {e : Except Unit α} {k : α → Except Unit β} {b : β}
    (h : e >>= k = .ok b) : ∃ a, e = .ok a ∧ k a = .ok b := by
  cases e with
  | error e => simp [Bind.bind, Except.bind] at h
  | ok a => exact ⟨a, rfl, by simpa [Bind.bind, Except.bind] using h⟩

/-- Inversion of a `pure` result. -/
lemma ok_of_pure {β : Type} {x y : β} (h : (pure x : Except Unit β) = .ok y) : x = y :=
  Except.ok.inj h

lemma pytrunc_nonneg {q : ℚ} (h : 0 ≤ q) : 0 ≤ pytrunc q := by
  unfold pytrunc
  rw [if_pos h]
  exact Int.floor_nonneg.mpr h

lemma puntos_domicilio_nonneg (a : ℚ) : 0 ≤ puntos_domicilio a := by
  unfold puntos_domicilio; split_ifs <;> norm_num

lemma puntos_civil_nonneg (s : String) : 0 ≤ puntos_civil s := by
  unfold puntos_civil; split_ifs <;> norm_num

lemma puntos_dep_nonneg (n : ℤ) : 0 ≤ puntos_dep n := by
  unfold puntos_dep; split_ifs <;> norm_num

lemma puntos_estudios_nonneg (s : String) : 0 ≤ puntos_estudios s := by
  unfold puntos_estudios; split_ifs <;> norm_num

lemma puntos_ocupacion_nonneg (s : String) : 0 ≤ puntos_ocupacion s := by
  unfold puntos_ocupacion; split_ifs <;> norm_num

lemma puntos_emp_nonneg (a : ℚ) : 0 ≤ puntos_emp a := by
  unfold puntos_emp; split_ifs <;> norm_num

lemma puntos_edad_nonneg (e : ℤ) : 0 ≤ puntos_edad e := by
  unfold puntos_edad; split_ifs <;> norm_num

lemma puntos_validaciones_nonneg (d i : Option String) : 0 ≤ puntos_validaciones d i := by
  unfold puntos_validaciones; split_ifs <;> norm_num

lemma puntos_calif_nonneg (c : ℤ) : 0 ≤ puntos_calif c := by
  unfold puntos_calif; split_ifs <;> norm_num

lemma puntos_consultas_nonneg (n : ℤ) : 0 ≤ puntos_consultas n := by
  unfold puntos_consultas; split_ifs <;> norm_num

lemma puntos_fico_nonneg (f : ℤ) : 0 ≤ puntos_fico f := by
  unfold puntos_fico; split_ifs <;> norm_num

lemma puntos_comprobante_nonneg (t : String) : 0 ≤ puntos_comprobante t := by
  unfold puntos_comprobante; split_ifs <;> norm_num

lemma puntos_estabilidad_nonneg (s : String) : 0 ≤ puntos_estabilidad s := by
  unfold puntos_estabilidad; split_ifs <;> norm_num

lemma puntos_tdsr_nonneg (q : ℚ) : 0 ≤ puntos_tdsr q := by
  unfold puntos_tdsr; split_ifs <;> norm_num

/-- The weighted Variables Generales contribution lies in `[0, 54]` whenever
the factor is nonnegative: the capped raw score is at most 180 and the weight
is 0.30. -/
lemma generales_bounds (reglas : Reglas) (datos : Datos) (g : Categoria)
    (hf : 0 ≤ reglas.factor_scoring) (h : calcular_variables_generales reglas datos = .ok g) :
    0 ≤ g.puntos_ponderados ∧ g.puntos_ponderados ≤ 54 := by
  unfold calcular_variables_generales at h
  obtain ⟨a1, -, h⟩ := bind_eq_ok h
  obtain ⟨a2, -, h⟩ := bind_eq_ok h
  obtain ⟨a3, -, h⟩ := bind_eq_ok h
  obtain ⟨a4, -, h⟩ := bind_eq_ok h
  obtain rfl := ok_of_pure h
  dsimp only
  set p : ℤ := puntos_domicilio a1 + puntos_civil (datos.estado_civil.getD "soltero") +
    puntos_dep a2 + puntos_estudios (datos.nivel_estudios.getD "secundaria") +
    puntos_ocupacion (datos.ocupacion.getD "empleado_privado") + puntos_emp a3 +
    puntos_edad a4 + puntos_validaciones datos.comprobante_domicilio datos.comprobante_ingresos
    with hp
  have hp0 : (0 : ℤ) ≤ p := by
    rw [hp]
    have := puntos_domicilio_nonneg a1
    have := puntos_civil_nonneg (datos.estado_civil.getD "soltero")
    have := puntos_dep_nonneg a2
    have := puntos_estudios_nonneg (datos.nivel_estudios.getD "secundaria")
    have := puntos_ocupacion_nonneg (datos.ocupacion.getD "empleado_privado")
    have := puntos_emp_nonneg a3
    have := puntos_edad_nonneg a4
    have := puntos_validaciones_nonneg datos.comprobante_domicilio datos.comprobante_ingresos
    linarith
  have htr : (0 : ℤ) ≤ pytrunc ((p : ℚ) * reglas.factor_scoring) :=
    pytrunc_nonneg (mul_nonneg (by exact_mod_cast hp0) hf)
  constructor
  · have h1 : (0 : ℤ) ≤ min (pytrunc ((p : ℚ) * reglas.factor_scoring)) 180 :=
      le_min htr (by norm_num)
    have h2 : (0 : ℚ) ≤ ((min (pytrunc ((p : ℚ) * reglas.factor_scoring)) 180 : ℤ) : ℚ) := by
      exact_mod_cast h1
    linarith
  · have h1 : min (pytrunc ((p : ℚ) * reglas.factor_scoring)) 180 ≤ (180 : ℤ) :=
      min_le_right _ _
    have h2 : ((min (pytrunc ((p : ℚ) * reglas.factor_scoring)) 180 : ℤ) : ℚ) ≤ 180 := by
      exact_mod_cast h1
    linarith

/-- The weighted Historial Crediticio contribution lies in `[0, 39]`. -/
lemma historial_bounds (reglas : Reglas) (datos : Datos) (g : Categoria)
    (hf : 0 ≤ reglas.factor_scoring) (h : calcular_historial_crediticio reglas datos = .ok g) :
    0 ≤ g.puntos_ponderados ∧ g.puntos_ponderados ≤ 39 := by
  unfold calcular_historial_crediticio at h
  obtain ⟨a1, -, h⟩ := bind_eq_ok h
  obtain ⟨a2, -, h⟩ := bind_eq_ok h
  obtain ⟨a3, -, h⟩ := bind_eq_ok h
  obtain rfl := ok_of_pure h
  dsimp only
  set p : ℤ := puntos_calif a1 + puntos_consultas a2 + puntos_fico a3 with hp
  have hp0 : (0 : ℤ) ≤ p := by
    rw [hp]
    have := puntos_calif_nonneg a1
    have := puntos_consultas_nonneg a2
    have := puntos_fico_nonneg a3
    linarith
  have htr : (0 : ℤ) ≤ pytrunc ((p : ℚ) * reglas.factor_scoring) :=
    pytrunc_nonneg (mul_nonneg (by exact_mod_cast hp0) hf)
  constructor
  · have h1 : (0 : ℤ) ≤ min (pytrunc ((p : ℚ) * reglas.factor_scoring)) 130 :=
      le_min htr (by norm_num)
    have h2 : (0 : ℚ) ≤ ((min (pytrunc ((p : ℚ) * reglas.factor_scoring)) 130 : ℤ) : ℚ) := by
      exact_mod_cast h1
    linarith
  · have h1 : min (pytrunc ((p : ℚ) * reglas.factor_scoring)) 130 ≤ (130 : ℤ) :=
      min_le_right _ _
    have h2 : ((min (pytrunc ((p : ℚ) * reglas.factor_scoring)) 130 : ℤ) : ℚ) ≤ 130 := by
      exact_mod_cast h1
    linarith

/-- The weighted Capacidad de Pago contribution lies in `[0, 36]`. -/
lemma capacidad_bounds (reglas : Reglas) (datos : Datos) (c : Capacidad)
    (hf : 0 ≤ reglas.factor_scoring) (h : calcular_capacidad_pago reglas datos = .ok c) :
    0 ≤ c.puntos_ponderados ∧ c.puntos_ponderados ≤ 36 := by
  unfold calcular_capacidad_pago at h
  obtain ⟨a1, -, h⟩ := bind_eq_ok h
  obtain ⟨a2, -, h⟩ := bind_eq_ok h
  obtain rfl := ok_of_pure h
  dsimp only
  set p : ℤ := puntos_comprobante (datos.tipo_comprobante.getD "otros") +
    puntos_estabilidad (datos.ocupacion.getD "empleado_privado") +
    puntos_tdsr (if a1 > 0 then a2 / a1 else 0) with hp
  have hp0 : (0 : ℤ) ≤ p := by
    rw [hp]
    have := puntos_comprobante_nonneg (datos.tipo_comprobante.getD "otros")
    have := puntos_estabilidad_nonneg (datos.ocupacion.getD "empleado_privado")
    have := puntos_tdsr_nonneg (if a1 > 0 then a2 / a1 else 0)
    linarith
  have htr : (0 : ℤ) ≤ pytrunc ((p : ℚ) * reglas.factor_scoring) :=
    pytrunc_nonneg (mul_nonneg (by exact_mod_cast hp0) hf)
  constructor
  · have h1 : (0 : ℤ) ≤ min (pytrunc ((p : ℚ) * reglas.factor_scoring)) 90 :=
      le_min htr (by norm_num)
    have h2 : (0 : ℚ) ≤ ((min (pytrunc ((p : ℚ) * reglas.factor_scoring)) 90 : ℤ) : ℚ) := by
      exact_mod_cast h1
    linarith
  · have h1 : min (pytrunc ((p : ℚ) * reglas.factor_scoring)) 90 ≤ (90 : ℤ) :=
      min_le_right _ _
    have h2 : ((min (pytrunc ((p : ℚ) * reglas.factor_scoring)) 90 : ℤ) : ℚ) ≤ 90 := by
      exact_mod_cast h1
    linarith

/-- Every result `evaluar_solicitud` returns under the default rules is a
rejection whose score lies in `[0, 129]` and carries no risk level: the three
weighted category caps sum to `54 + 39 + 36 = 129`, strictly below the default
approval threshold 250, so the score check always fires first. -/
lemma evaluar_default_ok (datos : Datos) (t : ℤ) (r : Resultado)
    (h : evaluar_solicitud reglasDefault datos t = .ok r) :
    r.aprobado = false ∧ 0 ≤ r.score ∧ r.score ≤ 129 ∧ r.nivel_riesgo = none := by
  unfold evaluar_solicitud at h
  obtain ⟨ingresos, -, h⟩ := bind_eq_ok h
  split at h
  · obtain rfl := ok_of_pure h
    exact ⟨rfl, le_refl 0, by norm_num, rfl⟩
  · obtain ⟨fico, -, h⟩ := bind_eq_ok h
    split at h
    · obtain rfl := ok_of_pure h
      exact ⟨rfl, le_refl 0, by norm_num, rfl⟩
    · obtain ⟨g, hg, h⟩ := bind_eq_ok h
      obtain ⟨hi, hh, h⟩ := bind_eq_ok h
      obtain ⟨c, hc, h⟩ := bind_eq_ok h
      have hgB := generales_bounds _ _ _ (by norm_num [reglasDefault]) hg
      have hhB := historial_bounds _ _ _ (by norm_num [reglasDefault]) hh
      have hcB := capacidad_bounds _ _ _ (by norm_num [reglasDefault]) hc
      dsimp only at h
      split at h
      · obtain rfl := ok_of_pure h
        refine ⟨rfl, ?_, ?_, rfl⟩ <;> dsimp only <;>
          linarith [hgB.1, hgB.2, hhB.1, hhB.2, hcB.1, hcB.2]
      · split at h
        · obtain rfl := ok_of_pure h
          refine ⟨rfl, ?_, ?_, rfl⟩ <;> dsimp only <;>
            linarith [hgB.1, hgB.2, hhB.1, hhB.2, hcB.1, hcB.2]
        · rename_i hscore
          exact absurd (by
            show g.puntos_ponderados + hi.puntos_ponderados + c.puntos_ponderados <
              ((reglasDefault.score_minimo_aprobacion : ℤ) : ℚ)
            norm_num [reglasDefault]
            linarith [hgB.2, hhB.2, hcB.2]) hscore

/-- Congruence of `Except.map sinFecha` through a bind. -/
lemma map_sinFecha_bind {α : Type} (e : Except Unit α) (k1 k2 : α → Except Unit Resultado)
    (h : ∀ a, (k1 a).map sinFecha = (k2 a).map sinFecha) :
    (e >>= k1).map sinFecha = (e >>= k2).map sinFecha := by
  cases e with
  | error e => rfl
  | ok a => exact h a

/-- A malformed override entry makes its application raise. -/
lemma aplicar_error {o : Override} (h : malformado o = true) (r : Reglas) :
    aplicarOverride r o = .error () := by
  cases o with
  | desconocida => simp [malformado] at h
  | score_minimo v => cases v <;> simp_all [malformado, aplicarOverride, Bind.bind, Except.bind]
  | ingreso_minimo v => cases v <;> simp_all [malformado, aplicarOverride, Bind.bind, Except.bind]
  | monto_maximo v => cases v <;> simp_all [malformado, aplicarOverride, Bind.bind, Except.bind]
  | plazos v => cases v <;> simp_all [malformado, aplicarOverride, Bind.bind, Except.bind]
  | tasa_minima v => cases v <;> simp_all [malformado, aplicarOverride, Bind.bind, Except.bind]
  | tasa_maxima v => cases v <;> simp_all [malformado, aplicarOverride, Bind.bind, Except.bind]
  | tdsr_maximo v => cases v <;> simp_all [malformado, aplicarOverride, Bind.bind, Except.bind]
  | fico_minimo v => cases v <;> simp_all [malformado, aplicarOverride, Bind.bind, Except.bind]
  | factor_scoring v => cases v <;> simp_all [malformado, aplicarOverride, Bind.bind, Except.bind]

/-- The validation loop fails as a whole whenever any entry is malformed,
however many valid entries precede it. -/
lemma validar_error_of_malformado {o : Override} (hmal : malformado o = true)
    (post : List Override) :
    ∀ (pre : List Override) (r : Reglas), validarReglas r (pre ++ o :: post) = .error () := by
  intro pre
  induction pre with
  | nil =>
    intro r
    simp [validarReglas, aplicar_error hmal r, Bind.bind, Except.bind]
  | cons p ps ih =>
    intro r
    show validarReglas r (p :: (ps ++ o :: post)) = .error ()
    unfold validarReglas
    cases hp : aplicarOverride r p with
    | error e => cases e; simp [Bind.bind, Except.bind]
    | ok r2 => simpa [Bind.bind, Except.bind] using ih r2

/-- Evaluating the `perfil_alto` case study under the default rules: both hard
checks pass (35000 ≥ 8000, 720 ≥ 500), the TDSR check passes (8/35 ≤ 0.45),
and the score lands exactly on the weighted cap 129, below the 250 threshold. -/
lemma eval_perfilAlto_default :
    evaluar_solicitud reglasDefault perfilAlto 0 = .ok resultadoPerfilAlto := by
  norm_num [evaluar_solicitud, calcular_variables_generales, calcular_historial_crediticio,
    calcular_capacidad_pago, reglasDefault, perfilAlto, resultadoPerfilAlto, getCampo,
    Option.getD, Bind.bind, Except.bind, pure, Except.pure, pytrunc, puntos_domicilio,
    puntos_civil, puntos_dep, puntos_estudios, puntos_ocupacion, puntos_emp, puntos_edad,
    puntos_validaciones, puntos_calif, puntos_consultas, puntos_fico, puntos_comprobante,
    puntos_estabilidad, puntos_tdsr, round_eq]

/-- Rejection at the minimum-income check: whenever the read income is below
`INGRESO_MINIMO`, `evaluar_solicitud` returns at its first `return`
(`src/app.py:389-394`) with the income reason, whatever the other fields. -/
lemma gate_ingresos (reglas : Reglas) (datos : Datos) (t : ℤ) (q : ℚ)
    (hq : getCampo datos.ingresos_mensuales 0 = .ok q)
    (hlt : q < ((reglas.ingreso_minimo : ℤ) : ℚ)) :
    evaluar_solicitud reglas datos t =
      .ok { aprobado := false, razon := some .ingresos, score := 0 } := by
  unfold evaluar_solicitud
  rw [hq]
  simp only [Bind.bind, Except.bind]
  rw [if_pos hlt]
  rfl

/-! ### Claims -/

/-- C1: Under the default rule configuration (SCORE_MINIMO_APROBACION = 250,
FACTOR_SCORING = 1.2), `evaluar_solicitud` never returns an approved result
for any input: the three category scores are capped at 180, 130 and 90 before
weighting by 0.30, 0.30 and 0.40, so the total score is at most
54 + 39 + 36 = 129, strictly below the 250 approval threshold, and every
evaluation ends with `aprobado = False`. -/
theorem c1_defaults_nunca_aprueba (datos : Datos) (t : ℤ) (r : Resultado)
    (h : evaluar_solicitud reglasDefault datos t = .ok r) : r.aprobado = false :=
  (evaluar_default_ok datos t r h).1

/-- Witness for C1: the `perfil_alto` case study evaluates to a returned
(rejected) result, so the theorem is not vacuous. -/
theorem c1_defaults_nunca_aprueba_witness : resultadoPerfilAlto.aprobado = false :=
  c1_defaults_nunca_aprueba perfilAlto 0 resultadoPerfilAlto eval_perfilAlto_default

/-- C2 counterexample: the profile `datosDoble` violates both the
minimum-income rule (5000 < 8000) and the minimum-FICO rule (300 < 500), yet
the returned result carries only the income reason — the FICO check is never
reached, so the claim that both violations are reported is false. -/
theorem c2_counterexample :
    ((5000 : ℚ) < ((reglasDefault.ingreso_minimo : ℤ) : ℚ)) ∧
    ((300 : ℤ) < reglasDefault.fico_minimo_aprobacion) ∧
    evaluar_solicitud reglasDefault datosDoble 0 =
      .ok { aprobado := false, razon := some .ingresos, score := 0 } := by
  refine ⟨by norm_num [reglasDefault], by norm_num [reglasDefault], ?_⟩
  exact gate_ingresos reglasDefault datosDoble 0 5000 rfl (by norm_num [reglasDefault])

/-- C2 amended: the hard checks of `evaluar_solicitud` short-circuit in the
order income, FICO: a profile whose income is below the minimum gets exactly
the income rejection, regardless of how many other hard rules it violates. -/
theorem c2_gate_corta (reglas : Reglas) (datos : Datos) (t : ℤ) (q : ℚ)
    (hq : getCampo datos.ingresos_mensuales 0 = .ok q)
    (hlt : q < ((reglas.ingreso_minimo : ℤ) : ℚ)) :
    evaluar_solicitud reglas datos t =
      .ok { aprobado := false, razon := some .ingresos, score := 0 } :=
  gate_ingresos reglas datos t q hq hlt

/-- Witness for C2's amended theorem at the doubly-violating profile. -/
theorem c2_gate_corta_witness :
    evaluar_solicitud reglasDefault datosDoble 0 =
      .ok { aprobado := false, razon := some .ingresos, score := 0 } :=
  c2_gate_corta reglasDefault datosDoble 0 5000 rfl (by norm_num [reglasDefault])

/-- C3 counterexample: `perfil_alto` passes both hard checks (its rejection
reason is the score check, which is only reached after them) yet its reported
score is 129, outside the claimed range [0, 100]; and the result reports no
AAA-style risk tier at all (`nivel_riesgo = none`). -/
theorem c3_counterexample :
    evaluar_solicitud reglasDefault perfilAlto 0 = .ok resultadoPerfilAlto ∧
    resultadoPerfilAlto.razon = some .score ∧
    ¬(resultadoPerfilAlto.score ≤ 100) := by
  exact ⟨eval_perfilAlto_default, rfl, by norm_num [resultadoPerfilAlto]⟩

/-- C3 amended: under the default rules every returned result (in particular
every profile passing the hard gate) has a score in [0, 129] — not [0, 100] —
and reports no risk tier, because the 250-score check rejects before the
tier mapping (≥350 Bajo, ≥300 Medio, else Alto) is ever reached. -/
theorem c3_score_en_rango (datos : Datos) (t : ℤ) (r : Resultado)
    (h : evaluar_solicitud reglasDefault datos t = .ok r) :
    0 ≤ r.score ∧ r.score ≤ 129 ∧ r.nivel_riesgo = none :=
  ⟨(evaluar_default_ok datos t r h).2.1, (evaluar_default_ok datos t r h).2.2.1,
    (evaluar_default_ok datos t r h).2.2.2⟩

/-- Witness for C3's amended theorem at the `perfil_alto` case study. -/
theorem c3_score_en_rango_witness :
    0 ≤ resultadoPerfilAlto.score ∧ resultadoPerfilAlto.score ≤ 129 ∧
      resultadoPerfilAlto.nivel_riesgo = none :=
  c3_score_en_rango perfilAlto 0 resultadoPerfilAlto eval_perfilAlto_default

/-- C4 counterexample: for income = 0, debt = 0 the engine's ratio is 0 (the
guard `if ingresos_mensuales > 0 else 0` at `src/app.py:303`), not the claimed
1.0, and the evaluation is rejected at the minimum-income check, not at a
debt-to-income check. -/
theorem c4_counterexample :
    calcular_capacidad_pago reglasDefault datosCero =
      .ok { puntos_obtenidos := 90, puntos_ponderados := 36, tdsr := 0 } ∧
    ((0 : ℚ) ≠ 1) ∧
    evaluar_solicitud reglasDefault datosCero 0 =
      .ok { aprobado := false, razon := some .ingresos, score := 0 } := by
  refine ⟨?_, by norm_num, gate_ingresos reglasDefault datosCero 0 0 rfl (by norm_num [reglasDefault])⟩
  norm_num [calcular_capacidad_pago, reglasDefault, datosCero, perfilAlto, getCampo,
    Option.getD, Bind.bind, Except.bind, pure, Except.pure, pytrunc, puntos_comprobante,
    puntos_estabilidad, puntos_tdsr]

/-- C4 amended: when the monthly income is zero (or negative) the engine sets
the debt-to-income ratio to 0 — minimal, not maximal, risk — without dividing;
and an income of zero is rejected at the minimum-income hard check (whenever
the configured minimum is positive), never reaching any debt-to-income
check. -/
theorem c4_tdsr_cero (reglas : Reglas) (datos : Datos) (q : ℚ) (c : Capacidad) (t : ℤ) :
    (datos.ingresos_mensuales = some (.ok q) → q ≤ 0 →
      calcular_capacidad_pago reglas datos = .ok c → c.tdsr = 0) ∧
    (datos.ingresos_mensuales = some (.ok 0) → 0 < reglas.ingreso_minimo →
      evaluar_solicitud reglas datos t =
        .ok { aprobado := false, razon := some .ingresos, score := 0 }) := by
  constructor
  · intro h1 h2 h3
    unfold calcular_capacidad_pago at h3
    rw [h1] at h3
    simp only [getCampo, Option.getD, Bind.bind, Except.bind] at h3
    obtain ⟨d, -, h3⟩ := bind_eq_ok (by simpa [Bind.bind] using h3)
    obtain rfl := ok_of_pure h3
    dsimp only
    rw [if_neg (not_lt.mpr h2)]
  · intro h1 h2
    refine gate_ingresos reglas datos t 0 ?_ ?_
    · rw [h1]; rfl
    · exact_mod_cast h2

/-- Witness for C4's amended theorem at the income = 0, debt = 0 profile. -/
theorem c4_tdsr_cero_witness :
    Capacidad.tdsr { puntos_obtenidos := 90, puntos_ponderados := 36, tdsr := 0 } = 0 ∧
    evaluar_solicitud reglasDefault datosCero 0 =
      .ok { aprobado := false, razon := some .ingresos, score := 0 } :=
  ⟨(c4_tdsr_cero reglasDefault datosCero 0
      { puntos_obtenidos := 90, puntos_ponderados := 36, tdsr := 0 } 0).1 rfl le_rfl
      (by norm_num [calcular_capacidad_pago, reglasDefault, datosCero, perfilAlto, getCampo,
        Option.getD, Bind.bind, Except.bind, pure, Except.pure, pytrunc, puntos_comprobante,
        puntos_estabilidad, puntos_tdsr]),
    (c4_tdsr_cero reglasDefault datosCero 0
      { puntos_obtenidos := 90, puntos_ponderados := 36, tdsr := 0 } 0).2 rfl
      (by norm_num [reglasDefault])⟩

/-- C5 counterexample: under the default rules with the approval threshold
lowered to 100 (so approvals are reachable), `perfil_alto` is approved with
score 129 and annual rate 0.34 = 17/50, whereas the claimed interpolation
formula, clamped to the default [0.22, 0.38] band, gives 0.22 = 11/50: the
rate is not the interpolation of the claim. -/
theorem c5_counterexample :
    (evaluar_solicitud reglas100 perfilAlto 0).map (fun r => (r.score, r.tasa_anual)) =
      .ok (129, some (17 / 50)) ∧
    tasaInterpolada reglas100.tasa_minima reglas100.tasa_maxima 129 = 11 / 50 ∧
    ((17 : ℚ) / 50 ≠ 11 / 50) := by
  refine ⟨?_, by norm_num [tasaInterpolada, reglas100, reglasDefault, min_def, max_def],
    by norm_num⟩
  norm_num [evaluar_solicitud, calcular_variables_generales, calcular_historial_crediticio,
    calcular_capacidad_pago, calcular_condiciones_credito, tasaAnual, reglas100, reglasDefault,
    perfilAlto, getCampo, Option.getD, Bind.bind, Except.bind, pure, Except.pure, Except.map,
    pytrunc, pyRound1, puntos_domicilio, puntos_civil, puntos_dep, puntos_estudios,
    puntos_ocupacion, puntos_emp, puntos_edad, puntos_validaciones, puntos_calif,
    puntos_consultas, puntos_fico, puntos_comprobante, puntos_estabilidad, puntos_tdsr,
    round_eq, min_def, max_def]

/-- C5 amended: the annual rate is the step function of the score at
`src/app.py:350-360` (min_rate for score ≥ 350, +0.04 for ≥ 300, +0.08 for
≥ 250, else +0.12, then capped at max_rate), not an interpolation; it still
satisfies the claim's consequences: whenever min_rate ≤ max_rate the rate lies
in [min_rate, max_rate], and a higher score never yields a higher rate. -/
theorem c5_tasa_escalonada (reglas : Reglas) (s1 s2 ingresos tdsr : ℚ) :
    (reglas.tasa_minima ≤ reglas.tasa_maxima →
      reglas.tasa_minima ≤ (calcular_condiciones_credito reglas s1 ingresos tdsr).tasa_anual ∧
      (calcular_condiciones_credito reglas s1 ingresos tdsr).tasa_anual ≤ reglas.tasa_maxima) ∧
    (s1 ≤ s2 →
      (calcular_condiciones_credito reglas s2 ingresos tdsr).tasa_anual ≤
        (calcular_condiciones_credito reglas s1 ingresos tdsr).tasa_anual) := by
  constructor
  · intro hb
    show reglas.tasa_minima ≤ tasaAnual reglas s1 ∧ tasaAnual reglas s1 ≤ reglas.tasa_maxima
    constructor
    · unfold tasaAnual
      refine le_min ?_ hb
      split_ifs <;> linarith
    · exact min_le_right _ _
  · intro h12
    show tasaAnual reglas s2 ≤ tasaAnual reglas s1
    unfold tasaAnual
    refine min_le_min ?_ le_rfl
    split_ifs <;> linarith

/-- Witness for C5's amended theorem: at scores 200 ≤ 300 under the default
band [0.22, 0.38], the bounds hold and the rate is antitone. -/
theorem c5_tasa_escalonada_witness :
    (reglasDefault.tasa_minima ≤
        (calcular_condiciones_credito reglasDefault 200 10000 0).tasa_anual ∧
      (calcular_condiciones_credito reglasDefault 200 10000 0).tasa_anual ≤
        reglasDefault.tasa_maxima) ∧
    (calcular_condiciones_credito reglasDefault 300 10000 0).tasa_anual ≤
      (calcular_condiciones_credito reglasDefault 200 10000 0).tasa_anual :=
  ⟨(c5_tasa_escalonada reglasDefault 200 300 10000 0).1 (by norm_num [reglasDefault]),
    (c5_tasa_escalonada reglasDefault 200 300 10000 0).2 (by norm_num)⟩

/-- C6 counterexample: with a requested amount of 5000 supplied, the approved
amount is 67500 — not `min(requested, tier_max) ≤ 5000`: the requested amount
is ignored entirely (the approval threshold is lowered to 100 so that an
approved evaluation exists). -/
theorem c6_counterexample :
    (evaluar_solicitud reglas100 datosConMonto 0).map
        (fun r => (r.aprobado, r.monto_aprobado)) = .ok (true, some 67500) ∧
    ¬((67500 : ℚ) ≤ 5000) := by
  refine ⟨?_, by norm_num⟩
  norm_num [evaluar_solicitud, calcular_variables_generales, calcular_historial_crediticio,
    calcular_capacidad_pago, calcular_condiciones_credito, montoFinal, factorMonto,
    pyRoundNeg2, reglas100, reglasDefault, datosConMonto, perfilAlto, getCampo,
    Option.getD, Bind.bind, Except.bind, pure, Except.pure, Except.map, pytrunc, pyRound1,
    puntos_domicilio, puntos_civil, puntos_dep, puntos_estudios, puntos_ocupacion,
    puntos_emp, puntos_edad, puntos_validaciones, puntos_calif, puntos_consultas,
    puntos_fico, puntos_comprobante, puntos_estabilidad, puntos_tdsr, round_eq,
    min_def, max_def]

/-- C6 amended: the evaluation ignores `monto_solicitado` entirely — changing
it never changes the result — and the approved amount is instead the rounded
clamp of `income * factor(score) * (1 - min(tdsr, 0.4))` into
[10000, MONTO_MAXIMO_CREDITO]. -/
theorem c6_monto_ignora_solicitado (reglas : Reglas) (datos : Datos)
    (v : Option (Except Unit ℚ)) (t : ℤ) :
    evaluar_solicitud reglas { datos with monto_solicitado := v } t =
      evaluar_solicitud reglas datos t ∧
    ∀ score ingresos tdsr : ℚ,
      (calcular_condiciones_credito reglas score ingresos tdsr).monto_aprobado =
        pyRoundNeg2 (max (min (ingresos * factorMonto score * (1 - min tdsr 0.4))
          ((reglas.monto_maximo_credito : ℤ) : ℚ)) 10000) :=
  ⟨rfl, fun _ _ _ => rfl⟩

/-- C7 counterexample: at score 300, income 10001, ratio 0 under the default
rules, the internal amount is 35003.5, reported (rounded to hundreds) as
35000; the 3-month payment is computed from 35003.5, so it differs from the
annuity formula applied to the reported approved amount and rate. -/
theorem c7_counterexample :
    (opcionDe (montoFinal reglasDefault 300 10001 0) (tasaAnual reglasDefault 300) 10001 3) ∈
      (calcular_condiciones_credito reglasDefault 300 10001 0).opciones_plazo ∧
    (opcionDe (montoFinal reglasDefault 300 10001 0) (tasaAnual reglasDefault 300) 10001
        3).pago_mensual ≠
      pyRound2 (pagoAnualidad
        (calcular_condiciones_credito reglasDefault 300 10001 0).monto_aprobado
        (calcular_condiciones_credito reglasDefault 300 10001 0).tasa_anual 3) := by
  constructor
  · show _ ∈ List.map _ reglasDefault.plazos_autorizados
    exact List.mem_map_of_mem _ (by simp [reglasDefault])
  · norm_num [opcionDe, pagoAnualidad, montoFinal, factorMonto, tasaAnual,
      calcular_condiciones_credito, pyRound2, pyRoundNeg2, reglasDefault, round_eq,
      min_def, max_def]

/-- C7 amended: every authorized-term option's payment is the 2-decimal
rounding of the annuity formula applied to the pre-rounding amount
`monto_final` and the annual rate — the reported approved amount is that
amount rounded to hundreds, so the formula holds on the reported amount only
when `monto_final` is already a multiple of 100. -/
theorem c7_pago_preround (reglas : Reglas) (score ingresos tdsr : ℚ) (plazo : ℤ)
    (hp : plazo ∈ reglas.plazos_autorizados) :
    (opcionDe (montoFinal reglas score ingresos tdsr) (tasaAnual reglas score) ingresos
        plazo).pago_mensual =
      pyRound2 (pagoAnualidad (montoFinal reglas score ingresos tdsr)
        (tasaAnual reglas score) plazo) ∧
    opcionDe (montoFinal reglas score ingresos tdsr) (tasaAnual reglas score) ingresos plazo ∈
      (calcular_condiciones_credito reglas score ingresos tdsr).opciones_plazo := by
  refine ⟨rfl, ?_⟩
  show _ ∈ List.map _ _
  exact List.mem_map_of_mem _ hp

/-- Witness for C7's amended theorem at the 3-month term of the default rules. -/
theorem c7_pago_preround_witness :
    (opcionDe (montoFinal reglasDefault 300 10001 0) (tasaAnual reglasDefault 300) 10001
        3).pago_mensual =
      pyRound2 (pagoAnualidad (montoFinal reglasDefault 300 10001 0)
        (tasaAnual reglasDefault 300) 3) ∧
    opcionDe (montoFinal reglasDefault 300 10001 0) (tasaAnual reglasDefault 300) 10001 3 ∈
      (calcular_condiciones_credito reglasDefault 300 10001 0).opciones_plazo :=
  c7_pago_preround reglasDefault 300 10001 0 3 (by simp [reglasDefault])

/-- C8 counterexample: a record whose `ingresos_mensuales` does not coerce to
a number makes `evaluar_solicitud` raise (no rejection result is returned);
the `/api/evaluar` route catches the exception and answers with the HTTP 400
error payload, not with an evaluation result. -/
theorem c8_counterexample :
    evaluar_solicitud reglasDefault datosMalo 0 = .error () ∧
    evaluar_credito reglasDefault datosMalo 0 = .fallo := by
  constructor <;>
    simp [evaluar_credito, evaluar_solicitud, datosMalo, perfilAlto, getCampo, Option.getD,
      Bind.bind, Except.bind]

/-- C8 amended: a malformed `ingresos_mensuales` field always escapes
`evaluar_solicitud` as an exception; the route converts it into the error
response (`success = False`, HTTP 400) — the HTTP caller never sees the
exception, but also never receives a rejection-decision result. -/
theorem c8_error_a_fallo (reglas : Reglas) (datos : Datos) (t : ℤ)
    (h : datos.ingresos_mensuales = some (.error ())) :
    evaluar_credito reglas datos t = .fallo := by
  simp [evaluar_credito, evaluar_solicitud, h, getCampo, Option.getD, Bind.bind, Except.bind]

/-- Witness for C8's amended theorem at the malformed-income record. -/
theorem c8_error_a_fallo_witness : evaluar_credito reglasDefault datosMalo 0 = .fallo :=
  c8_error_a_fallo reglasDefault datosMalo 0 rfl

/-- C9 counterexample: after a valid admin update raised the approval
threshold to 300, a malformed override map makes the endpoint answer with the
HTTP 400 error payload (an error does surface to the caller) while the rule
configuration stays at the updated state — it does not fall back to the
hardcoded defaults. -/
theorem c9_counterexample :
    actualizar_reglas reglasDefault [Override.score_minimo (.ok 300)] = (.exito, reglas300) ∧
    actualizar_reglas reglas300 [Override.factor_scoring (.error ())] = (.fallo, reglas300) ∧
    reglas300 ≠ reglasDefault := by
  refine ⟨rfl, rfl, ?_⟩
  simp [reglas300, reglasDefault]

/-- C9 amended: a malformed entry anywhere in the override map makes the
endpoint return the error response and leave the rule configuration exactly
as it was — no fallback to defaults and no partial merge of the valid
entries. -/
theorem c9_fallo_conserva_estado (reglas : Reglas) (pre post : List Override) (o : Override)
    (h : malformado o = true) :
    actualizar_reglas reglas (pre ++ o :: post) = (.fallo, reglas) := by
  unfold actualizar_reglas
  rw [validar_error_of_malformado h post pre reglas]

/-- Witness for C9's amended theorem: a valid entry followed by a malformed
one leaves the (already non-default) state untouched. -/
theorem c9_fallo_conserva_estado_witness :
    actualizar_reglas reglas300
        ([Override.score_minimo (.ok 280)] ++ Override.factor_scoring (.error ()) :: []) =
      (.fallo, reglas300) :=
  c9_fallo_conserva_estado reglas300 [Override.score_minimo (.ok 280)] []
    (Override.factor_scoring (.error ())) rfl

/-- C10 counterexample: two calls with identical applicant data and rules but
different clock readings return different results — the `fecha` field of an
approved result holds the evaluation time (the approval threshold is lowered
to 100 so that an approved, `fecha`-carrying result exists). -/
theorem c10_counterexample :
    evaluar_solicitud reglas100 perfilAlto 0 ≠ evaluar_solicitud reglas100 perfilAlto 1 := by
  have h0 : (evaluar_solicitud reglas100 perfilAlto 0).map (fun r => r.fecha) =
      .ok (some 0) := by
    norm_num [evaluar_solicitud, calcular_variables_generales, calcular_historial_crediticio,
      calcular_capacidad_pago, reglas100, reglasDefault, perfilAlto, getCampo, Option.getD,
      Bind.bind, Except.bind, pure, Except.pure, Except.map, pytrunc, puntos_domicilio,
      puntos_civil, puntos_dep, puntos_estudios, puntos_ocupacion, puntos_emp, puntos_edad,
      puntos_validaciones, puntos_calif, puntos_consultas, puntos_fico, puntos_comprobante,
      puntos_estabilidad, puntos_tdsr, round_eq]
  have h1 : (evaluar_solicitud reglas100 perfilAlto 1).map (fun r => r.fecha) =
      .ok (some 1) := by
    norm_num [evaluar_solicitud, calcular_variables_generales, calcular_historial_crediticio,
      calcular_capacidad_pago, reglas100, reglasDefault, perfilAlto, getCampo, Option.getD,
      Bind.bind, Except.bind, pure, Except.pure, Except.map, pytrunc, puntos_domicilio,
      puntos_civil, puntos_dep, puntos_estudios, puntos_ocupacion, puntos_emp, puntos_edad,
      puntos_validaciones, puntos_calif, puntos_consultas, puntos_fico, puntos_comprobante,
      puntos_estabilidad, puntos_tdsr, round_eq]
  intro h
  rw [h, h1] at h0
  simp at h0

/-- C10 amended: apart from the `fecha` timestamp, the evaluation is a
deterministic function of the applicant data and the rules: erasing `fecha`,
two calls at any two clock readings give identical results (rejections carry
no `fecha` and are identical outright). -/
theorem c10_determinista_sin_fecha (reglas : Reglas) (datos : Datos) (t1 t2 : ℤ) :
    (evaluar_solicitud reglas datos t1).map sinFecha =
      (evaluar_solicitud reglas datos t2).map sinFecha := by
  unfold evaluar_solicitud
  refine map_sinFecha_bind _ _ _ (fun ingresos => ?_)
  by_cases h1 : ingresos < ((reglas.ingreso_minimo : ℤ) : ℚ)
  · simp only [if_pos h1]
  · simp only [if_neg h1]
    refine map_sinFecha_bind _ _ _ (fun fico => ?_)
    by_cases h2 : fico < reglas.fico_minimo_aprobacion
    · simp only [if_pos h2]
    · simp only [if_neg h2]
      refine map_sinFecha_bind _ _ _ (fun g => ?_)
      refine map_sinFecha_bind _ _ _ (fun hi => ?_)
      refine map_sinFecha_bind _ _ _ (fun c => ?_)
      dsimp only
      by_cases h3 : c.tdsr > reglas.tdsr_maximo
      · simp only [if_pos h3]
      · simp only [if_neg h3]
        by_cases h4 : g.puntos_ponderados + hi.puntos_ponderados + c.puntos_ponderados <
            ((reglas.score_minimo_aprobacion : ℤ) : ℚ)
        · simp only [if_pos h4]
        · simp only [if_neg h4]
          rfl

end CreditApp
